import Mathlib

/-!
Verification of the AfriGuard ingestion/synchronization subsystem
(`src/services/ingestion-worker.ts`) of the map-explorer repository.

The relational store is embedded shallowly: each table is a list of rows,
`db.query` upserts become explicit list transformations, and the
try/catch control flow of `syncHazardSource` becomes a total function on
a `DBState` together with an explicit exception channel
(`Except String Unit`) standing for the returned promise.

Fault injection: the fetcher result is passed in as
`Except String (List RawRecord)` (the promise the fetcher resolves or
rejects with), and `failAt : Option Nat` is the zero-based index of the
record whose upsert throws (with message `msg`), `none` meaning every
upsert succeeds.  Timestamps are naturals counting milliseconds, as in
`Date.now()`.
-/

namespace MapExplorer

/-- Raw hazard record in the shape every fetcher must produce
(`{ id, type, severity, title, description, lat, lng, event_at, intensity, metadata }`). -/
structure RawRecord where
  id : String
  type : String
  severity : String
  title : String
  description : String
  lat : Int
  lng : Int
  event_at : Nat
  intensity : Int
  metadata : String
deriving DecidableEq, Repr

/-- Row of `hazard_alerts`.  Schema (api/v1/forecast/runs.ts `ensureSchema`):
`is_active BOOLEAN NOT NULL DEFAULT TRUE`, `created_at`/`updated_at`
`DEFAULT NOW()`, `UNIQUE (source, external_id)`. -/
structure HazardAlert where
  external_id : String
  source : String
  type : String
  severity : String
  title : String
  description : String
  lat : Int
  lng : Int
  event_at : Nat
  intensity : Int
  metadata : String
  is_active : Bool
  created_at : Nat
  updated_at : Nat
deriving DecidableEq, Repr

/-- Row of `source_watermarks` (one per source). -/
structure SourceWatermark where
  source : String
  last_timestamp : Nat
  error_count : Nat
  backoff_until : Option Nat
deriving DecidableEq, Repr

/-- Row of `ingestion_logs` (append-only). -/
structure IngestionLogEntry where
  source : String
  status : String
  records_synced : Nat
  latency_ms : Nat
  error_message : Option String
deriving DecidableEq, Repr

/-- The three tables touched by the ingestion subsystem. -/
structure DBState where
  alerts : List HazardAlert
  watermarks : List SourceWatermark
  logs : List IngestionLogEntry
deriving DecidableEq, Repr

/-- `SELECT ... FROM source_watermarks WHERE source = $1` (first matching row). -/
def findWatermark (source : String) : List SourceWatermark → Option SourceWatermark
  | [] => none
  | w :: rest => if w.source = source then some w else findWatermark source rest

/-- `current.rows[0]?.error_count || 0` (line 60): the stored error count,
defaulting to 0 when the source has no watermark row. -/
def errCountOf (source : String) (ws : List SourceWatermark) : Nat :=
  ((findWatermark source ws).map SourceWatermark.error_count).getD 0

/-- The stored `backoff_until` of a source, if any. -/
def backoffOf (source : String) (ws : List SourceWatermark) : Option Nat :=
  (findWatermark source ws).bind SourceWatermark.backoff_until

/-- The stored `last_timestamp` of a source, if any. -/
def lastTsOf (source : String) (ws : List SourceWatermark) : Option Nat :=
  (findWatermark source ws).map SourceWatermark.last_timestamp

/-- Backoff gate (lines 12-16): skip when the watermark exists and its
`backoff_until` is strictly in the future (`new Date(b) > now`). -/
def inBackoff (now : Nat) (source : String) (ws : List SourceWatermark) : Bool :=
  match findWatermark source ws with
  | some w =>
    match w.backoff_until with
    | some b => decide (now < b)
    | none => false
  | none => false

/-- Row created by the INSERT arm of the hazard upsert (lines 24-39):
all supplied fields, plus the schema defaults `is_active = true`,
`created_at = updated_at = now`. -/
def insertAlert (now : Nat) (source : String) (r : RawRecord) : HazardAlert :=
  { external_id := r.id
    source := source
    type := r.type
    severity := r.severity
    title := r.title
    description := r.description
    lat := r.lat
    lng := r.lng
    event_at := r.event_at
    intensity := r.intensity
    metadata := r.metadata
    is_active := true
    created_at := now
    updated_at := now }

/-- `ON CONFLICT (source, external_id) DO UPDATE SET severity, title,
description, intensity, metadata, updated_at = NOW()` (lines 28-34):
only those six columns change; everything else keeps its stored value. -/
def conflictUpdate (now : Nat) (r : RawRecord) (a : HazardAlert) : HazardAlert :=
  { a with
    severity := r.severity
    title := r.title
    description := r.description
    intensity := r.intensity
    metadata := r.metadata
    updated_at := now }

/-- The hazard upsert of lines 24-39: update the first row matching the
unique key `(source, external_id)`, else append a fresh row. -/
def upsertAlert (now : Nat) (source : String) (r : RawRecord) : List HazardAlert → List HazardAlert
  | [] => [insertAlert now source r]
  | a :: rest =>
    if a.source = source ∧ a.external_id = r.id then conflictUpdate now r a :: rest
    else a :: upsertAlert now source r rest

/-- Number of `hazard_alerts` rows carrying a given `(source, external_id)` key. -/
def countKey (source eid : String) : List HazardAlert → Nat
  | [] => 0
  | a :: rest => (if a.source = source ∧ a.external_id = eid then 1 else 0) + countKey source eid rest

/-- Set `updated_at := t` on every row with the given key, leave the rest alone. -/
def touch (t : Nat) (source eid : String) (alerts : List HazardAlert) : List HazardAlert :=
  alerts.map fun a =>
    if a.source = source ∧ a.external_id = eid then { a with updated_at := t } else a

/-- The sequential upsert loop of lines 23-40 with no failure: fold the
records over the table in the order the fetcher returned them. -/
def applyAll (now : Nat) (source : String) (records : List RawRecord)
    (alerts : List HazardAlert) : List HazardAlert :=
  records.foldl (fun acc r => upsertAlert now source r acc) alerts

/-- The sequential upsert loop of lines 23-40 with fault injection:
`failAt = some k` makes the upsert of the k-th remaining record throw
`msg`; the rows already written stay committed (each upsert is its own
unit of work) and the loop stops there. -/
def runUpserts (now : Nat) (source msg : String) :
    Option Nat → List RawRecord → List HazardAlert → List HazardAlert × Option String
  | _, [], alerts => (alerts, none)
  | some 0, _ :: _, alerts => (alerts, some msg)
  | some (k + 1), r :: rs, alerts =>
      runUpserts now source msg (some k) rs (upsertAlert now source r alerts)
  | none, r :: rs, alerts =>
      runUpserts now source msg none rs (upsertAlert now source r alerts)

/-- Watermark upsert of the success path (lines 43-50): insert or
overwrite with `last_timestamp = now, error_count = 0, backoff_until = NULL`. -/
def watermarkSuccess (now : Nat) (source : String) : List SourceWatermark → List SourceWatermark
  | [] =>
    [{ source := source
       last_timestamp := now
       error_count := 0
       backoff_until := none }]
  | w :: rest =>
    if w.source = source then
      { w with
        last_timestamp := now
        error_count := 0
        backoff_until := none } :: rest
    else w :: watermarkSuccess now source rest

/-- Watermark upsert of the failure path (lines 64-70): on conflict only
`error_count` and `backoff_until` are updated (`last_timestamp` keeps its
stored value); with no existing row the INSERT arm fires and the fresh
row gets `last_timestamp = now`. -/
def watermarkFailure (now : Nat) (source : String) (errorCount : Nat) (backoffUntil : Nat) :
    List SourceWatermark → List SourceWatermark
  | [] =>
    [{ source := source
       last_timestamp := now
       error_count := errorCount
       backoff_until := some backoffUntil }]
  | w :: rest =>
    if w.source = source then
      { w with
        error_count := errorCount
        backoff_until := some backoffUntil } :: rest
    else w :: watermarkFailure now source errorCount backoffUntil rest

/-- `logIngestion` (lines 86-91): append one row to `ingestion_logs`. -/
def logIngestion (source status : String) (count latency : Nat) (err : Option String)
    (logs : List IngestionLogEntry) : List IngestionLogEntry :=
  logs ++ [{ source := source
             status := status
             records_synced := count
             latency_ms := latency
             error_message := err }]

/-- The catch block (lines 55-73): read the stored error count (default 0),
increment, `backoffMinutes = min(2^errorCount, 1440)`,
`backoffUntil = now + backoffMinutes * 60000` ms, upsert the watermark and
append a FAILED log row with `records_synced = 0` and the error message. -/
def failurePath (now : Nat) (source msg : String) (latency : Nat) (db : DBState) : DBState :=
  let errorCount := errCountOf source db.watermarks + 1
  let backoffUntil := now + min (2 ^ errorCount) 1440 * 60000
  { alerts := db.alerts
    watermarks := watermarkFailure now source errorCount backoffUntil db.watermarks
    logs := logIngestion source "FAILED" 0 latency (some msg) db.logs }

/-- The try block (lines 19-53): fetch, upsert loop, success watermark,
SUCCESS log.  The second component is the exception escaping the block,
if any; the first is the state as committed so far. -/
def syncAttempt (source : String) (now : Nat) (fetched : Except String (List RawRecord))
    (failAt : Option Nat) (msg : String) (latency : Nat) (db : DBState) :
    DBState × Except String Unit :=
  match fetched with
  | Except.error m => (db, Except.error m)
  | Except.ok records =>
    match runUpserts now source msg failAt records db.alerts with
    | (alerts2, some m) => ({ db with alerts := alerts2 }, Except.error m)
    | (alerts2, none) =>
      ({ alerts := alerts2
         watermarks := watermarkSuccess now source db.watermarks
         logs := logIngestion source "SUCCESS" records.length latency none db.logs },
       Except.ok ())

/-- `syncHazardSource` in full (lines 8-74), with the promise it returns:
backoff gate, then the try block, whose exception the catch converts into
backoff state and a FAILED log row — every path resolves with `ok ()`. -/
def syncHazardSourceRun (source : String) (now : Nat) (fetched : Except String (List RawRecord))
    (failAt : Option Nat) (msg : String) (latency : Nat) (db : DBState) :
    DBState × Except String Unit :=
  if inBackoff now source db.watermarks then (db, Except.ok ())
  else
    match syncAttempt source now fetched failAt msg latency db with
    | (db2, Except.ok _) => (db2, Except.ok ())
    | (db2, Except.error m) => (failurePath now source m latency db2, Except.ok ())

/-- The database state after one `syncHazardSource` invocation. -/
def syncHazardSource (source : String) (now : Nat) (fetched : Except String (List RawRecord))
    (failAt : Option Nat) (msg : String) (latency : Nat) (db : DBState) : DBState :=
  (syncHazardSourceRun source now fetched failAt msg latency db).1

/-- Freshness window of the staleness sweep: 72 hours in milliseconds. -/
def staleWindowMs : Nat := 72 * 3600000

/-- Per-row effect of `cleanupStaleAlerts` (lines 76-84):
`SET is_active = false WHERE updated_at < NOW() - INTERVAL '72 hours'
AND is_active = true`. -/
def cleanupStale (now : Nat) (a : HazardAlert) : HazardAlert :=
  if a.updated_at + staleWindowMs < now ∧ a.is_active = true then
    { a with is_active := false }
  else a

/-- `cleanupStaleAlerts`: the sweep applied to every row of `hazard_alerts`. -/
def cleanupStaleAlerts (now : Nat) (db : DBState) : DBState :=
  { db with alerts := db.alerts.map (cleanupStale now) }

/-- N consecutive failed sync attempts (each one runs the catch block of
lines 55-73) at the given times, with no intervening success. -/
def iterateFailures (source msg : String) (latency : Nat) : List Nat → DBState → DBState
  | [], db => db
  | t :: ts, db => iterateFailures source msg latency ts (failurePath t source msg latency db)

/-- Modelled from the spec: the Canonical Taxonomy Mapper
(`canonicalThreatType`, spec section 4.1) exists nowhere under the
repository sources; this renders the spec's words — trim and lower-case
the input, return the canonical category whose alias set contains it,
return the normalized input unchanged when nothing matches, and return
`"unknown"` for null/undefined/empty input.  Only the cyclone alias set
is spelled out by the spec; the remaining categories are listed with
their own names as aliases. -/
def taxonomyTable : List (String × List String) :=
  [("cyclone", ["cyclone", "tropical_cyclone", "tc", "tropical storm", "hurricane",
                "typhoon", "tropical_depression"]),
   ("flood", ["flood"]), ("drought", ["drought"]), ("cholera", ["cholera"]),
   ("lassa", ["lassa"]), ("meningitis", ["meningitis"]), ("malaria", ["malaria"]),
   ("ebola", ["ebola"]), ("measles", ["measles"]), ("convergence", ["convergence"])]

/-- Lower-case one character (ASCII, kernel-reducible). -/
def lowerChar (c : Char) : Char :=
  if 'A' ≤ c ∧ c ≤ 'Z' then Char.ofNat (c.toNat + 32) else c

/-- Whitespace recognized by trimming. -/
def isWsChar (c : Char) : Bool := c = ' ' || c = '\t' || c = '\n' || c = '\r'

/-- Strip leading and trailing whitespace from a character list. -/
def trimChars (l : List Char) : List Char :=
  ((l.dropWhile isWsChar).reverse.dropWhile isWsChar).reverse

/-- Modelled from the spec: normalization of a raw type string — trimmed
and lower-cased before lookup. -/
def normalizeRaw (s : String) : String :=
  String.mk (trimChars (s.data.map lowerChar))

/-- Modelled from the spec: `canonicalThreatType` over a possibly-missing
raw type string (`none` stands for null/undefined). -/
def canonicalThreatType : Option String → String
  | none => "unknown"
  | some s =>
    let n := normalizeRaw s
    if n = "" then "unknown"
    else
      match taxonomyTable.find? (fun p => p.2.contains n) with
      | some p => p.1
      | none => n

/-! Concrete fixtures used by witnesses and counterexamples. -/

/-- A raw record whose type string is a non-normalized cyclone alias. -/
def rHurricane : RawRecord :=
  { id := "h1"
    type := " Hurricane "
    severity := "high"
    title := "H"
    description := "d"
    lat := 10
    lng := 20
    event_at := 100
    intensity := 80
    metadata := "{}" }

/-- Empty database: no alerts, no watermarks, no logs. -/
def emptyDB : DBState := { alerts := [], watermarks := [], logs := [] }

/-- A stored alert that the staleness sweep has deactivated. -/
def aStale : HazardAlert :=
  { external_id := "h1"
    source := "s"
    type := "flood"
    severity := "low"
    title := "t0"
    description := "d0"
    lat := 1
    lng := 2
    event_at := 3
    intensity := 4
    metadata := "m0"
    is_active := false
    created_at := 10
    updated_at := 10 }

/-- A re-ingested record for the same key as `aStale`, with a new type. -/
def rNew : RawRecord :=
  { id := "h1"
    type := "cyclone"
    severity := "high"
    title := "t1"
    description := "d1"
    lat := 9
    lng := 9
    event_at := 99
    intensity := 77
    metadata := "m1" }

/-- Numbered records for batch scenarios. -/
def mkRec (n : Nat) : RawRecord :=
  { id := "e" ++ toString n
    type := "flood"
    severity := "low"
    title := "t"
    description := "d"
    lat := 0
    lng := 0
    event_at := n
    intensity := 1
    metadata := "m" }

/-- A database whose only watermark holds a future backoff for source `gfs`. -/
def dbBackoff : DBState :=
  { alerts := []
    watermarks := [{ source := "gfs", last_timestamp := 10, error_count := 3, backoff_until := some 500 }]
    logs := [] }

/-- An active alert last updated 73 hours before the sweep at `now = 300000000`. -/
def a73 : HazardAlert := { aStale with external_id := "old", is_active := true, updated_at := 37200000 }

/-- An active alert last updated 71 hours before the sweep at `now = 300000000`. -/
def a71 : HazardAlert := { aStale with external_id := "fresh", is_active := true, updated_at := 44400000 }

/-- Database holding one stale and one fresh active alert. -/
def dbCleanup : DBState := { alerts := [a73, a71], watermarks := [], logs := [] }

/-! Helper lemmas. -/

theorem runUpserts_nil (now : Nat) (source msg : String) (failAt : Option Nat)
    (alerts : List HazardAlert) :
    runUpserts now source msg failAt [] alerts = (alerts, none) := by
  cases failAt with
  | none => rfl
  | some k =>
    cases k with
    | zero => rfl
    | succ k => rfl

theorem map_comp_self {α : Type} {f : α → α} (hf : ∀ x, f (f x) = f x) (l : List α) :
    (l.map f).map f = l.map f := by
  induction l with
  | nil => rfl
  | cons a rest ih => simp [hf, ih]

theorem findWatermark_watermarkSuccess (now : Nat) (source : String) (ws : List SourceWatermark) :
    findWatermark source (watermarkSuccess now source ws)
      = some { source := source, last_timestamp := now, error_count := 0, backoff_until := none } := by
  induction ws with
  | nil => simp [watermarkSuccess, findWatermark]
  | cons w rest ih =>
    by_cases h : w.source = source
    · simp [watermarkSuccess, findWatermark, h]
    · simp [watermarkSuccess, findWatermark, h, ih]

theorem findWatermark_watermarkFailure_none (now : Nat) (source : String) (ec bu : Nat)
    (ws : List SourceWatermark) (h : findWatermark source ws = none) :
    findWatermark source (watermarkFailure now source ec bu ws)
      = some { source := source, last_timestamp := now, error_count := ec, backoff_until := some bu } := by
  induction ws with
  | nil => simp [watermarkFailure, findWatermark]
  | cons w rest ih =>
    by_cases hw : w.source = source
    · simp [findWatermark, hw] at h
    · simp [findWatermark, hw] at h
      simp [watermarkFailure, findWatermark, hw, ih h]

theorem findWatermark_watermarkFailure_some (now : Nat) (source : String) (ec bu : Nat)
    (ws : List SourceWatermark) (w : SourceWatermark) (h : findWatermark source ws = some w) :
    findWatermark source (watermarkFailure now source ec bu ws)
      = some { w with error_count := ec, backoff_until := some bu } := by
  induction ws with
  | nil => simp [findWatermark] at h
  | cons w0 rest ih =>
    by_cases hw : w0.source = source
    · simp [findWatermark, hw] at h
      subst h
      simp [watermarkFailure, findWatermark, hw]
    · simp [findWatermark, hw] at h
      simp [watermarkFailure, findWatermark, hw, ih h]

theorem applyAll_nil (now : Nat) (source : String) (alerts : List HazardAlert) :
    applyAll now source [] alerts = alerts := rfl

theorem applyAll_cons (now : Nat) (source : String) (r : RawRecord) (rs : List RawRecord)
    (alerts : List HazardAlert) :
    applyAll now source (r :: rs) alerts = applyAll now source rs (upsertAlert now source r alerts) := rfl

theorem runUpserts_none (now : Nat) (source msg : String) (records : List RawRecord)
    (alerts : List HazardAlert) :
    runUpserts now source msg none records alerts = (applyAll now source records alerts, none) := by
  induction records generalizing alerts with
  | nil => rfl
  | cons r rs ih => simp [runUpserts, applyAll_cons, ih]

theorem runUpserts_fail (now : Nat) (source msg : String) (records : List RawRecord)
    (k : Nat) (alerts : List HazardAlert) (hk : k < records.length) :
    runUpserts now source msg (some k) records alerts
      = (applyAll now source (records.take k) alerts, some msg) := by
  induction records generalizing k alerts with
  | nil => simp at hk
  | cons r rs ih =>
    cases k with
    | zero => rfl
    | succ k =>
      simp only [List.length_cons, Nat.succ_lt_succ_iff] at hk
      simp [runUpserts, List.take, applyAll_cons, ih k _ hk]

theorem errCountOf_failurePath (t : Nat) (source msg : String) (latency : Nat) (db : DBState) :
    errCountOf source (failurePath t source msg latency db).watermarks
      = errCountOf source db.watermarks + 1 := by
  cases h : findWatermark source db.watermarks with
  | none =>
    simp [failurePath, errCountOf, findWatermark_watermarkFailure_none _ _ _ _ _ h, h]
  | some w =>
    simp [failurePath, errCountOf, findWatermark_watermarkFailure_some _ _ _ _ _ _ h, h]

theorem backoffOf_failurePath (t : Nat) (source msg : String) (latency : Nat) (db : DBState) :
    backoffOf source (failurePath t source msg latency db).watermarks
      = some (t + min (2 ^ (errCountOf source db.watermarks + 1)) 1440 * 60000) := by
  cases h : findWatermark source db.watermarks with
  | none =>
    simp [failurePath, backoffOf, findWatermark_watermarkFailure_none _ _ _ _ _ h]
  | some w =>
    simp [failurePath, backoffOf, findWatermark_watermarkFailure_some _ _ _ _ _ _ h]

theorem lastTsOf_failurePath_some (t : Nat) (source msg : String) (latency : Nat) (db : DBState)
    (w : SourceWatermark) (h : findWatermark source db.watermarks = some w) :
    lastTsOf source (failurePath t source msg latency db).watermarks = some w.last_timestamp := by
  simp [failurePath, lastTsOf, findWatermark_watermarkFailure_some _ _ _ _ _ _ h]

theorem lastTsOf_failurePath_none (t : Nat) (source msg : String) (latency : Nat) (db : DBState)
    (h : findWatermark source db.watermarks = none) :
    lastTsOf source (failurePath t source msg latency db).watermarks = some t := by
  simp [failurePath, lastTsOf, findWatermark_watermarkFailure_none _ _ _ _ _ h]

theorem failurePath_logs (t : Nat) (source msg : String) (latency : Nat) (db : DBState) :
    (failurePath t source msg latency db).logs
      = db.logs ++ [{ source := source
                      status := "FAILED"
                      records_synced := 0
                      latency_ms := latency
                      error_message := some msg }] := rfl

theorem failurePath_alerts (t : Nat) (source msg : String) (latency : Nat) (db : DBState) :
    (failurePath t source msg latency db).alerts = db.alerts := rfl

theorem iterateFailures_append (source msg : String) (latency : Nat) (ts : List Nat) (tN : Nat)
    (db : DBState) :
    iterateFailures source msg latency (ts ++ [tN]) db
      = failurePath tN source msg latency (iterateFailures source msg latency ts db) := by
  induction ts generalizing db with
  | nil => rfl
  | cons t ts ih => simp [iterateFailures, ih]

theorem errCountOf_iterateFailures (source msg : String) (latency : Nat) (ts : List Nat)
    (db : DBState) :
    errCountOf source (iterateFailures source msg latency ts db).watermarks
      = errCountOf source db.watermarks + ts.length := by
  induction ts generalizing db with
  | nil => rfl
  | cons t ts ih =>
    simp [iterateFailures, ih, errCountOf_failurePath]
    omega

theorem syncHazardSource_ok (source : String) (now : Nat) (records : List RawRecord)
    (msg : String) (latency : Nat) (db : DBState)
    (hb : inBackoff now source db.watermarks = false) :
    syncHazardSource source now (Except.ok records) none msg latency db
      = { alerts := applyAll now source records db.alerts
          watermarks := watermarkSuccess now source db.watermarks
          logs := logIngestion source "SUCCESS" records.length latency none db.logs } := by
  simp [syncHazardSource, syncHazardSourceRun, syncAttempt, hb, runUpserts_none]

theorem syncHazardSource_fetchFail (source : String) (now : Nat) (m : String)
    (failAt : Option Nat) (msg : String) (latency : Nat) (db : DBState)
    (hb : inBackoff now source db.watermarks = false) :
    syncHazardSource source now (Except.error m) failAt msg latency db
      = failurePath now source m latency db := by
  simp [syncHazardSource, syncHazardSourceRun, syncAttempt, hb]

theorem syncHazardSource_upsertFail (source : String) (now : Nat) (records : List RawRecord)
    (k : Nat) (msg : String) (latency : Nat) (db : DBState)
    (hb : inBackoff now source db.watermarks = false) (hk : k < records.length) :
    syncHazardSource source now (Except.ok records) (some k) msg latency db
      = failurePath now source msg latency
          { db with alerts := applyAll now source (records.take k) db.alerts } := by
  simp [syncHazardSource, syncHazardSourceRun, syncAttempt, hb, runUpserts_fail _ _ _ _ _ _ hk]

theorem cleanupStale_idem (now : Nat) (a : HazardAlert) :
    cleanupStale now (cleanupStale now a) = cleanupStale now a := by
  by_cases h : a.updated_at + staleWindowMs < now ∧ a.is_active = true
  · simp [cleanupStale, h]
  · simp [cleanupStale, h]

theorem countKey_upsert (t : Nat) (source : String) (r : RawRecord) (alerts : List HazardAlert) :
    countKey source r.id (upsertAlert t source r alerts)
      = max (countKey source r.id alerts) 1 := by
  induction alerts with
  | nil => simp [upsertAlert, countKey, insertAlert]
  | cons a rest ih =>
    by_cases h : a.source = source ∧ a.external_id = r.id
    · simp [upsertAlert, countKey, h, conflictUpdate]
    · simp [upsertAlert, countKey, h, ih]

theorem countKey_eq_zero (source eid : String) (l : List HazardAlert) :
    countKey source eid l = 0 ↔ ∀ a ∈ l, ¬(a.source = source ∧ a.external_id = eid) := by
  induction l with
  | nil => simp [countKey]
  | cons a rest ih =>
    by_cases h : a.source = source ∧ a.external_id = eid
    · simp [countKey, h, ih]
    · rw [countKey, if_neg h, Nat.zero_add, ih]
      constructor
      · intro hr b hb
        rcases List.mem_cons.mp hb with hb | hb
        · subst hb; exact h
        · exact hr b hb
      · intro hall b hb
        exact hall b (List.mem_cons_of_mem a hb)

theorem map_id_of_mem {α : Type} (f : α → α) (l : List α) (h : ∀ x ∈ l, f x = x) :
    l.map f = l := by
  induction l with
  | nil => rfl
  | cons a rest ih =>
    rw [List.map_cons, h a (List.mem_cons_self a rest),
        ih fun x hx => h x (List.mem_cons_of_mem a hx)]

theorem touch_updated_at (t : Nat) (source eid : String) (l : List HazardAlert)
    (a : HazardAlert) (ha : a ∈ touch t source eid l) (hs : a.source = source)
    (he : a.external_id = eid) : a.updated_at = t := by
  rcases List.mem_map.mp ha with ⟨b, hb, rfl⟩
  by_cases h : b.source = source ∧ b.external_id = eid
  · simp [h]
  · simp only [if_neg h] at hs he
    exact absurd ⟨hs, he⟩ h

theorem upsert_twice_touch (t1 t2 : Nat) (source : String) (r : RawRecord)
    (alerts : List HazardAlert) (hc : countKey source r.id alerts ≤ 1) :
    upsertAlert t2 source r (upsertAlert t1 source r alerts)
      = touch t2 source r.id (upsertAlert t1 source r alerts)
    ∧ ∀ a ∈ upsertAlert t1 source r alerts,
        a.source = source → a.external_id = r.id → a.updated_at = t1 := by
  induction alerts with
  | nil =>
    refine ⟨?_, ?_⟩
    · simp [upsertAlert, insertAlert, touch, conflictUpdate]
    · intro a ha hs he
      simp only [upsertAlert, List.mem_singleton] at ha
      subst ha
      rfl
  | cons a rest ih =>
    by_cases h : a.source = source ∧ a.external_id = r.id
    · have hc0 : countKey source r.id rest = 0 := by
        rw [countKey, if_pos h] at hc
        omega
      have hnone := (countKey_eq_zero source r.id rest).mp hc0
      have hrest : ∀ b ∈ rest,
          (if b.source = source ∧ b.external_id = r.id then { b with updated_at := t2 } else b) = b := by
        intro b hb
        rw [if_neg (hnone b hb)]
      refine ⟨?_, ?_⟩
      · simp only [upsertAlert, if_pos h]
        have hcu : (conflictUpdate t1 r a).source = source ∧
            (conflictUpdate t1 r a).external_id = r.id := h
        simp only [upsertAlert, if_pos hcu, touch, List.map_cons, if_pos hcu,
          map_id_of_mem _ rest hrest]
        rfl
      · intro b hb hs he
        simp only [upsertAlert, if_pos h, List.mem_cons] at hb
        rcases hb with hb | hb
        · subst hb; rfl
        · exact absurd ⟨hs, he⟩ (hnone b hb)
    · have hc1 : countKey source r.id rest ≤ 1 := by
        rw [countKey, if_neg h] at hc
        omega
      obtain ⟨ih1, ih2⟩ := ih hc1
      refine ⟨?_, ?_⟩
      · simp only [upsertAlert, if_neg h]
        rw [ih1]
        simp only [touch, List.map_cons, if_neg h]
      · intro b hb hs he
        simp only [upsertAlert, if_neg h, List.mem_cons] at hb
        rcases hb with hb | hb
        · subst hb; exact absurd ⟨hs, he⟩ h
        · exact ih2 b hb hs he

/-! Claim theorems. -/

/-- C1 counterexample: `syncHazardSource` passes `record.type` to the INSERT
verbatim (line 36); no taxonomy mapping happens on the ingestion path.  A
record whose raw type is the alias `" Hurricane "` is stored with type
`" Hurricane "`, while the taxonomy mapper canonicalizes that alias to
`"cyclone"` — so the type written is NOT the mapper's output. -/
theorem sync_writes_raw_type_cex :
    (syncHazardSource "gfs" 1000 (Except.ok [rHurricane]) none "m" 5 emptyDB).alerts.map
        HazardAlert.type = [" Hurricane "]
    ∧ canonicalThreatType (some rHurricane.type) = "cyclone"
    ∧ (" Hurricane " : String) ≠ "cyclone" := by
  decide

/-- C1 (amended): the type written to `hazard_alerts` by the upsert path is
the raw record's type string unchanged — an inserted row carries exactly
`r.type` (no trimming, lower-casing, alias mapping or unknown-substitution),
and a conflicting upsert leaves every stored type untouched. -/
theorem upsertAlert_type_passthrough (now : Nat) (source : String) (r : RawRecord)
    (alerts : List HazardAlert) :
    (upsertAlert now source r alerts).map HazardAlert.type = alerts.map HazardAlert.type
    ∨ (upsertAlert now source r alerts).map HazardAlert.type
        = alerts.map HazardAlert.type ++ [r.type] := by
  induction alerts with
  | nil => right; simp [upsertAlert, insertAlert]
  | cons a rest ih =>
    by_cases h : a.source = source ∧ a.external_id = r.id
    · left; simp [upsertAlert, h, conflictUpdate]
    · rcases ih with ih | ih
      · left; simp [upsertAlert, h, ih]
      · right; simp [upsertAlert, h, ih]

/-- C2 (confirmed): starting from a table satisfying the unique-key
invariant, upserting the same raw record twice leaves exactly one row for
`(source, external_id)`; the second upsert equals the first state with
only the key row's `updated_at` moved to the second write's time, the key
row carried `updated_at = t1` after the first write, and it carries
`updated_at = t2 ≥ t1` after the second. -/
theorem upsert_idempotent_key (t1 t2 : Nat) (source : String) (r : RawRecord)
    (alerts : List HazardAlert) (hc : countKey source r.id alerts ≤ 1) (hle : t1 ≤ t2) :
    countKey source r.id (upsertAlert t2 source r (upsertAlert t1 source r alerts)) = 1
    ∧ upsertAlert t2 source r (upsertAlert t1 source r alerts)
        = touch t2 source r.id (upsertAlert t1 source r alerts)
    ∧ (∀ a ∈ upsertAlert t1 source r alerts,
        a.source = source → a.external_id = r.id → a.updated_at = t1 ∧ t1 ≤ t2)
    ∧ (∀ a ∈ upsertAlert t2 source r (upsertAlert t1 source r alerts),
        a.source = source → a.external_id = r.id → a.updated_at = t2) := by
  obtain ⟨h1, h2⟩ := upsert_twice_touch t1 t2 source r alerts hc
  refine ⟨?_, h1, fun a ha hs he => ⟨h2 a ha hs he, hle⟩, ?_⟩
  · rw [countKey_upsert, countKey_upsert]
    omega
  · intro a ha hs he
    rw [h1] at ha
    exact touch_updated_at t2 source r.id _ a ha hs he

/-- C2 witness: the generic idempotency theorem applied to a concrete
record and an empty table. -/
theorem upsert_idempotent_key_witness :
    countKey "s" rNew.id (upsertAlert 2 "s" rNew (upsertAlert 1 "s" rNew [])) = 1
    ∧ upsertAlert 2 "s" rNew (upsertAlert 1 "s" rNew [])
        = touch 2 "s" rNew.id (upsertAlert 1 "s" rNew [])
    ∧ (∀ a ∈ upsertAlert 1 "s" rNew [],
        a.source = "s" → a.external_id = rNew.id → a.updated_at = 1 ∧ 1 ≤ 2)
    ∧ (∀ a ∈ upsertAlert 2 "s" rNew (upsertAlert 1 "s" rNew []),
        a.source = "s" → a.external_id = rNew.id → a.updated_at = 2) :=
  upsert_idempotent_key 1 2 "s" rNew [] (by decide) (by decide)

/-- C3 counterexample: the `ON CONFLICT` clause (lines 28-34) updates
neither `type` nor `is_active`.  Re-ingesting key `("s","h1")` with new
type `"cyclone"` over a deactivated row stored with type `"flood"`
leaves type `"flood"` and `is_active = false` — the claim's "type is
overwritten" and "is_active is forced true (revival)" both fail. -/
theorem conflict_preserves_type_active_cex :
    (upsertAlert 50 "s" rNew [aStale]).map (fun a => (a.type, a.is_active))
      = [("flood", false)]
    ∧ rNew.type = "cyclone"
    ∧ aStale.is_active = false := by
  decide

/-- C3 (amended): on a `(source, external_id)` conflict exactly the fields
severity, title, description, intensity and metadata are overwritten with
the new record's values and `updated_at` is refreshed, while type,
is_active, lat, lng, event_at, created_at, external_id and source all
keep their previously stored values — in particular a previously
deactivated alert is NOT revived by re-ingestion. -/
theorem upsert_conflict_frame (now : Nat) (source : String) (r : RawRecord) (a : HazardAlert)
    (rest : List HazardAlert) (h : a.source = source ∧ a.external_id = r.id) :
    upsertAlert now source r (a :: rest) = conflictUpdate now r a :: rest
    ∧ (conflictUpdate now r a).severity = r.severity
    ∧ (conflictUpdate now r a).title = r.title
    ∧ (conflictUpdate now r a).description = r.description
    ∧ (conflictUpdate now r a).intensity = r.intensity
    ∧ (conflictUpdate now r a).metadata = r.metadata
    ∧ (conflictUpdate now r a).updated_at = now
    ∧ (conflictUpdate now r a).type = a.type
    ∧ (conflictUpdate now r a).is_active = a.is_active
    ∧ (conflictUpdate now r a).lat = a.lat
    ∧ (conflictUpdate now r a).lng = a.lng
    ∧ (conflictUpdate now r a).event_at = a.event_at
    ∧ (conflictUpdate now r a).created_at = a.created_at
    ∧ (conflictUpdate now r a).external_id = a.external_id
    ∧ (conflictUpdate now r a).source = a.source := by
  refine ⟨by simp [upsertAlert, h], rfl, rfl, rfl, rfl, rfl, rfl, rfl, rfl, rfl, rfl, rfl,
    rfl, rfl, rfl⟩

/-- C3 witness: the amended conflict-frame theorem applied to the concrete
deactivated row and re-ingested record. -/
theorem upsert_conflict_frame_witness :
    (aStale.source = "s" ∧ aStale.external_id = rNew.id)
    ∧ upsertAlert 50 "s" rNew [aStale] = [conflictUpdate 50 rNew aStale]
    ∧ (conflictUpdate 50 rNew aStale).type = aStale.type
    ∧ (conflictUpdate 50 rNew aStale).is_active = aStale.is_active :=
  ⟨by decide,
   (upsert_conflict_frame 50 "s" rNew aStale [] (by decide)).1,
   (upsert_conflict_frame 50 "s" rNew aStale [] (by decide)).2.2.2.2.2.2.2.1,
   (upsert_conflict_frame 50 "s" rNew aStale [] (by decide)).2.2.2.2.2.2.2.2.1⟩

/-- C4 (confirmed): with the zero-based k-th upsert throwing, the records
are folded sequentially in fetcher order and the run commits exactly the
prefix before k (`records.take k`), writes nothing at or after k, logs
one FAILED row with `records_synced = 0` and the error's message, and
updates the watermark along the failure path. -/
theorem sync_partial_failure (source msg : String) (now k latency : Nat)
    (records : List RawRecord) (db : DBState)
    (hb : inBackoff now source db.watermarks = false) (hk : k < records.length) :
    syncHazardSource source now (Except.ok records) (some k) msg latency db
      = { alerts := applyAll now source (records.take k) db.alerts
          watermarks := watermarkFailure now source (errCountOf source db.watermarks + 1)
            (now + min (2 ^ (errCountOf source db.watermarks + 1)) 1440 * 60000) db.watermarks
          logs := db.logs ++ [{ source := source
                                status := "FAILED"
                                records_synced := 0
                                latency_ms := latency
                                error_message := some msg }] } := by
  rw [syncHazardSource_upsertFail source now records k msg latency db hb hk]
  rfl

/-- C4 witness: a five-record batch whose third upsert throws — the first
two records are committed, the rest are not, and the attempt is recorded
as FAILED. -/
theorem sync_partial_failure_witness :
    inBackoff 100 "gfs" emptyDB.watermarks = false
    ∧ 2 < ([mkRec 1, mkRec 2, mkRec 3, mkRec 4, mkRec 5] : List RawRecord).length
    ∧ syncHazardSource "gfs" 100 (Except.ok [mkRec 1, mkRec 2, mkRec 3, mkRec 4, mkRec 5])
        (some 2) "boom" 7 emptyDB
      = { alerts := applyAll 100 "gfs" ([mkRec 1, mkRec 2, mkRec 3, mkRec 4, mkRec 5].take 2)
            emptyDB.alerts
          watermarks := watermarkFailure 100 "gfs" (errCountOf "gfs" emptyDB.watermarks + 1)
            (100 + min (2 ^ (errCountOf "gfs" emptyDB.watermarks + 1)) 1440 * 60000)
            emptyDB.watermarks
          logs := emptyDB.logs ++ [{ source := "gfs"
                                     status := "FAILED"
                                     records_synced := 0
                                     latency_ms := 7
                                     error_message := some "boom" }] } :=
  ⟨by decide, by decide,
   sync_partial_failure "gfs" "boom" 100 2 7 [mkRec 1, mkRec 2, mkRec 3, mkRec 4, mkRec 5]
     emptyDB (by decide) (by decide)⟩

/-- C5 counterexample: on the first failed attempt for a source with no
watermark row, the INSERT arm of the failure upsert (lines 64-70) fires
and the fresh row gets `last_timestamp = now` — so `last_timestamp` is
NOT left unchanged on every failed attempt, as the claim states. -/
theorem failure_first_watermark_cex :
    findWatermark "gfs" emptyDB.watermarks = none
    ∧ lastTsOf "gfs"
        (syncHazardSource "gfs" 100 (Except.error "boom") none "m" 5 emptyDB).watermarks
      = some 100
    ∧ lastTsOf "gfs"
        (syncHazardSource "gfs" 100 (Except.error "boom") none "m" 5 emptyDB).watermarks
      ≠ lastTsOf "gfs" emptyDB.watermarks := by
  decide

/-- C5 (amended): every failed attempt reads the stored error count
(default 0), increments it, and sets `backoff_until` to now plus
`min(2^new_count, 1440)` minutes; `last_timestamp` is unchanged when a
watermark row already exists, and set to now when the row is first
created by the failure; hence after N consecutive failures with no
intervening success, error_count = N and the backoff window is
`min(2^N, 1440)` minutes after the last failure. -/
theorem backoff_failure_update (source msg : String) (now latency : Nat) (db : DBState)
    (ts : List Nat) (tN : Nat) (hb : inBackoff now source db.watermarks = false) :
    errCountOf source
        (syncHazardSource source now (Except.error msg) none msg latency db).watermarks
      = errCountOf source db.watermarks + 1
    ∧ backoffOf source
        (syncHazardSource source now (Except.error msg) none msg latency db).watermarks
      = some (now + min (2 ^ (errCountOf source db.watermarks + 1)) 1440 * 60000)
    ∧ (∀ w, findWatermark source db.watermarks = some w →
        lastTsOf source
            (syncHazardSource source now (Except.error msg) none msg latency db).watermarks
          = some w.last_timestamp)
    ∧ (findWatermark source db.watermarks = none →
        lastTsOf source
            (syncHazardSource source now (Except.error msg) none msg latency db).watermarks
          = some now)
    ∧ (errCountOf source db.watermarks = 0 →
        errCountOf source (iterateFailures source msg latency (ts ++ [tN]) db).watermarks
          = ts.length + 1
        ∧ backoffOf source (iterateFailures source msg latency (ts ++ [tN]) db).watermarks
          = some (tN + min (2 ^ (ts.length + 1)) 1440 * 60000)) := by
  rw [syncHazardSource_fetchFail source now msg none msg latency db hb]
  refine ⟨errCountOf_failurePath now source msg latency db,
    backoffOf_failurePath now source msg latency db,
    fun w hw => lastTsOf_failurePath_some now source msg latency db w hw,
    fun hn => lastTsOf_failurePath_none now source msg latency db hn,
    fun h0 => ?_⟩
  rw [iterateFailures_append]
  constructor
  · rw [errCountOf_failurePath, errCountOf_iterateFailures, h0, Nat.zero_add]
  · rw [backoffOf_failurePath, errCountOf_iterateFailures, h0, Nat.zero_add]

/-- C5 witness: three consecutive failures for a fresh source yield
error_count 3 and a backoff window of `min(2^3, 1440)` minutes after the
third failure. -/
theorem backoff_failure_update_witness :
    errCountOf "gfs" (iterateFailures "gfs" "m" 7 [200, 300, 400] emptyDB).watermarks = 3
    ∧ backoffOf "gfs" (iterateFailures "gfs" "m" 7 [200, 300, 400] emptyDB).watermarks
        = some (400 + min (2 ^ 3) 1440 * 60000) :=
  (backoff_failure_update "gfs" "m" 100 7 emptyDB [200, 300] 400 (by decide)).2.2.2.2 (by decide)

/-- C6 (confirmed): any fully successful sync, whatever the prior watermark
state, upserts the source's watermark to
`last_timestamp = now, error_count = 0, backoff_until = NULL`. -/
theorem success_resets_watermark (source msg : String) (now latency : Nat)
    (records : List RawRecord) (db : DBState)
    (hb : inBackoff now source db.watermarks = false) :
    (syncHazardSource source now (Except.ok records) none msg latency db).watermarks
        = watermarkSuccess now source db.watermarks
    ∧ findWatermark source
        (syncHazardSource source now (Except.ok records) none msg latency db).watermarks
      = some { source := source, last_timestamp := now, error_count := 0, backoff_until := none } := by
  rw [syncHazardSource_ok source now records msg latency db hb]
  exact ⟨rfl, findWatermark_watermarkSuccess now source db.watermarks⟩

/-- C6 witness: a success after three recorded failures (expired backoff)
resets the watermark. -/
theorem success_resets_watermark_witness :
    (syncHazardSource "gfs" 1000 (Except.ok [rHurricane]) none "m" 5 dbBackoff).watermarks
        = watermarkSuccess 1000 "gfs" dbBackoff.watermarks
    ∧ findWatermark "gfs"
        (syncHazardSource "gfs" 1000 (Except.ok [rHurricane]) none "m" 5 dbBackoff).watermarks
      = some { source := "gfs", last_timestamp := 1000, error_count := 0, backoff_until := none } :=
  success_resets_watermark "gfs" "m" 1000 5 [rHurricane] dbBackoff (by decide)

/-- C7 (confirmed): with `backoff_until` strictly in the future the call
returns the database untouched and resolves, independently of the fetcher
(so the fetcher is never consulted and nothing is logged or written);
otherwise exactly one log row is appended, so the backoff gate is the
only early-exit path; and the gate triggers precisely when the watermark
row exists with `backoff_until` set strictly beyond now. -/
theorem backoff_skip_only_exit (source : String) (now : Nat) (db : DBState) :
    (inBackoff now source db.watermarks = true →
      ∀ fetched failAt msg latency,
        syncHazardSourceRun source now fetched failAt msg latency db = (db, Except.ok ()))
    ∧ (inBackoff now source db.watermarks = false →
      ∀ fetched failAt msg latency,
        (syncHazardSource source now fetched failAt msg latency db).logs.length
          = db.logs.length + 1)
    ∧ (inBackoff now source db.watermarks = true ↔
        ∃ w, findWatermark source db.watermarks = some w
          ∧ ∃ b, w.backoff_until = some b ∧ now < b) := by
  refine ⟨?_, ?_, ?_⟩
  · intro h fetched failAt msg latency
    simp [syncHazardSourceRun, h]
  · intro h fetched failAt msg latency
    cases fetched with
    | error m =>
      rw [syncHazardSource_fetchFail source now m failAt msg latency db h, failurePath_logs]
      simp
    | ok records =>
      rcases hr : runUpserts now source msg failAt records db.alerts with ⟨alerts2, err⟩
      cases err with
      | none =>
        simp [syncHazardSource, syncHazardSourceRun, syncAttempt, h, hr, logIngestion]
      | some m =>
        simp [syncHazardSource, syncHazardSourceRun, syncAttempt, h, hr, failurePath,
          logIngestion]
  · unfold inBackoff
    cases hw : findWatermark source db.watermarks with
    | none => simp
    | some w =>
      cases hbu : w.backoff_until with
      | none => simp [hbu]
      | some b => simp [hbu]

/-- C7 witness: with a backoff until 500 the call at time 100 is a no-op
for any fetcher, and at time 1000 (backoff expired) a log row is written. -/
theorem backoff_skip_only_exit_witness :
    inBackoff 100 "gfs" dbBackoff.watermarks = true
    ∧ syncHazardSourceRun "gfs" 100 (Except.error "x") none "m" 7 dbBackoff
        = (dbBackoff, Except.ok ())
    ∧ (syncHazardSource "gfs" 1000 (Except.ok []) none "m" 7 dbBackoff).logs.length
        = dbBackoff.logs.length + 1 :=
  ⟨by decide,
   (backoff_skip_only_exit "gfs" 100 dbBackoff).1 (by decide) (Except.error "x") none "m" 7,
   (backoff_skip_only_exit "gfs" 1000 dbBackoff).2.1 (by decide) (Except.ok []) none "m" 7⟩

/-- C8 (confirmed): the promise returned by `syncHazardSource` resolves with
`ok ()` for every input — in particular for a rejecting fetcher and for
any failing upsert — so the caller cannot distinguish success from
failure; whenever the try block raises, the catch converts the error into
the failure path, whose log is the state's log plus one FAILED row. -/
theorem sync_no_exception_escape (source : String) (now latency : Nat)
    (fetched : Except String (List RawRecord)) (failAt : Option Nat) (msg : String)
    (db : DBState) :
    (syncHazardSourceRun source now fetched failAt msg latency db).2 = Except.ok ()
    ∧ (∀ db2 m, inBackoff now source db.watermarks = false →
        syncAttempt source now fetched failAt msg latency db = (db2, Except.error m) →
        syncHazardSourceRun source now fetched failAt msg latency db
          = (failurePath now source m latency db2, Except.ok ()))
    ∧ (∀ db2 m, (failurePath now source m latency db2).logs
        = db2.logs ++ [{ source := source
                         status := "FAILED"
                         records_synced := 0
                         latency_ms := latency
                         error_message := some m }]) := by
  refine ⟨?_, ?_, fun db2 m => failurePath_logs now source m latency db2⟩
  · by_cases h : inBackoff now source db.watermarks = true
    · simp [syncHazardSourceRun, h]
    · rcases ha : syncAttempt source now fetched failAt msg latency db with ⟨db2, e⟩
      cases e with
      | ok u => simp [syncHazardSourceRun, h, ha]
      | error m => simp [syncHazardSourceRun, h, ha]
  · intro db2 m h ha
    simp [syncHazardSourceRun, h, ha]

/-- C8 witness: a rejecting fetcher still resolves with `ok ()`, and the
raised error is converted into the failure path. -/
theorem sync_no_exception_escape_witness :
    (syncHazardSourceRun "gfs" 100 (Except.error "boom") none "m" 5 emptyDB).2 = Except.ok ()
    ∧ syncHazardSourceRun "gfs" 100 (Except.error "boom") none "m" 5 emptyDB
        = (failurePath 100 "gfs" "boom" 5 emptyDB, Except.ok ()) :=
  ⟨(sync_no_exception_escape "gfs" 100 5 (Except.error "boom") none "m" emptyDB).1,
   (sync_no_exception_escape "gfs" 100 5 (Except.error "boom") none "m" emptyDB).2.1
     emptyDB "boom" (by decide) rfl⟩

/-- C9 (confirmed): the sweep touches only the alerts table; a row is
flipped to inactive exactly when its `updated_at` is older than 72 hours
and it is currently active, with every other field kept; all other rows
are untouched; and re-running the sweep immediately is a no-op. -/
theorem cleanup_stale_alerts_spec (now : Nat) (db : DBState) :
    (cleanupStaleAlerts now db).alerts = db.alerts.map (cleanupStale now)
    ∧ (cleanupStaleAlerts now db).watermarks = db.watermarks
    ∧ (cleanupStaleAlerts now db).logs = db.logs
    ∧ (∀ a : HazardAlert, a.updated_at + staleWindowMs < now → a.is_active = true →
        cleanupStale now a = { a with is_active := false })
    ∧ (∀ a : HazardAlert, ¬(a.updated_at + staleWindowMs < now ∧ a.is_active = true) →
        cleanupStale now a = a)
    ∧ cleanupStaleAlerts now (cleanupStaleAlerts now db) = cleanupStaleAlerts now db := by
  refine ⟨rfl, rfl, rfl, ?_, ?_, ?_⟩
  · intro a h1 h2
    simp [cleanupStale, h1, h2]
  · intro a h
    simp [cleanupStale, h]
  · simp only [cleanupStaleAlerts]
    rw [map_comp_self (cleanupStale_idem now) db.alerts]

/-- C9 witness: at a sweep time of 300000000 ms, the alert updated 73 hours
ago is deactivated, the one updated 71 hours ago is untouched, and the
sweep is idempotent on the concrete table. -/
theorem cleanup_stale_alerts_spec_witness :
    cleanupStale 300000000 a73 = { a73 with is_active := false }
    ∧ cleanupStale 300000000 a71 = a71
    ∧ cleanupStaleAlerts 300000000 (cleanupStaleAlerts 300000000 dbCleanup)
        = cleanupStaleAlerts 300000000 dbCleanup :=
  ⟨(cleanup_stale_alerts_spec 300000000 dbCleanup).2.2.2.1 a73 (by decide) (by decide),
   (cleanup_stale_alerts_spec 300000000 dbCleanup).2.2.2.2.1 a71 (by decide),
   (cleanup_stale_alerts_spec 300000000 dbCleanup).2.2.2.2.2⟩

/-- C10 (confirmed): an empty fetch outside backoff is a full success —
no alert row is written, the watermark is upserted to
`last_timestamp = now, error_count = 0, backoff_until = NULL`, and
exactly one SUCCESS log row with `records_synced = 0` is appended. -/
theorem sync_empty_fetch_success (source msg : String) (now latency : Nat)
    (failAt : Option Nat) (db : DBState)
    (hb : inBackoff now source db.watermarks = false) :
    syncHazardSource source now (Except.ok []) failAt msg latency db
      = { alerts := db.alerts
          watermarks := watermarkSuccess now source db.watermarks
          logs := db.logs ++ [{ source := source
                                status := "SUCCESS"
                                records_synced := 0
                                latency_ms := latency
                                error_message := none }] }
    ∧ findWatermark source (watermarkSuccess now source db.watermarks)
        = some { source := source, last_timestamp := now, error_count := 0, backoff_until := none } := by
  refine ⟨?_, findWatermark_watermarkSuccess now source db.watermarks⟩
  simp [syncHazardSource, syncHazardSourceRun, syncAttempt, hb, runUpserts_nil, logIngestion]

/-- C10 witness: the empty-fetch success theorem at a concrete source and
empty database. -/
theorem sync_empty_fetch_success_witness :
    syncHazardSource "gfs" 100 (Except.ok []) none "m" 5 emptyDB
      = { alerts := emptyDB.alerts
          watermarks := watermarkSuccess 100 "gfs" emptyDB.watermarks
          logs := emptyDB.logs ++ [{ source := "gfs"
                                     status := "SUCCESS"
                                     records_synced := 0
                                     latency_ms := 5
                                     error_message := none }] }
    ∧ findWatermark "gfs" (watermarkSuccess 100 "gfs" emptyDB.watermarks)
        = some { source := "gfs", last_timestamp := 100, error_count := 0, backoff_until := none } :=
  sync_empty_fetch_success "gfs" "m" 100 5 none emptyDB (by decide)

end MapExplorer
